import Mathlib

/-!
Verification development for `src/notifier.py`, a single-file polling
notifier.  The script fetches two repository listings and one entity detail
record over HTTP, diffs them against a snapshot persisted on disk, formats
the differences, delivers them to Telegram, and saves the new snapshot.

The shallow embedding below translates the script into pure Lean functions.
External effects (the three HTTP GETs, the Telegram POST, the state file and
the two credential environment variables, the wall clock) are inputs,
collected in `RunEnv`; the observable behaviour of one invocation (exit
code, the snapshot written to disk if any, console output, whether a POST
was issued, whether the run died with an uncaught exception) is `RunResult`.
-/

/-- One parsed item of a listing response: the script only reads the
`"id"` key of each element (`s["id"]`, `m["id"]` in `fetch_repo_lists`). -/
structure RepoItem where
  id : String
deriving DecidableEq

/-- The detail record built by `fetch_space_detail`:
`{"sha": data.get("sha"), "lastModified": data.get("lastModified")}`.
`none` models a missing key / JSON `null` (Python `None`); the same shape
models the `"watched_space"` entry of a snapshot read back from disk. -/
structure WatchedDetail where
  sha : Option String
  lastModified : Option String
deriving DecidableEq

/-- The empty dict `{}` used as default in
`old_state.get("watched_space", {})`: `.get("sha")` on it yields `None`. -/
def emptyDetail : WatchedDetail :=
  { sha := none, lastModified := none }

/-- A snapshot, as built in `main` and persisted by `save_state`:
`{**repos, "watched_space": space_detail, "checked_at": ...}`.
`watched_space := none` models a state file written without that key,
which the script tolerates via `.get("watched_space", {})`. -/
structure Snapshot where
  space_ids : List String
  model_ids : List String
  watched_space : Option WatchedDetail
  checked_at : String
deriving DecidableEq

/-- A change entry `(priority, message)` as appended by `detect_changes`. -/
abbrev Change := String × String

/-- Python truthiness of `detail.get("sha")`: `None` and `""` are falsy. -/
def truthy : Option String → Bool
  | none => false
  | some s => s != ""

/-- Python's `<` on strings: lexicographic comparison of code points
(`ord`, i.e. `Char.toNat`). -/
def codeLt : List Char → List Char → Bool
  | _, [] => false
  | [], _ :: _ => true
  | a :: as, b :: bs =>
    if a.toNat < b.toNat then true
    else if b.toNat < a.toNat then false
    else codeLt as bs

/-- Python's `<=` on strings, the order `sorted` sorts by: `s <= t` iff
`not (t < s)`. -/
def strle (s t : String) : Prop :=
  codeLt t.data s.data = false

instance : DecidableRel strle :=
  fun s t => inferInstanceAs (Decidable (codeLt t.data s.data = false))

/-- Embedding of `sorted(set(new) - set(old))`: the distinct elements of `new` that are
not in `old`, in ascending code-point order. -/
def sortedSetDiff (new old : List String) : List String :=
  List.insertionSort strle ((new.filter (fun x => decide (x ∉ old))).dedup)

/-- First loop of `detect_changes`:
`for sid in sorted(new_spaces): changes.append(("HIGH", f"New Space: {sid}"))`. -/
def newSpaceChanges (old_state new_state : Snapshot) : List Change :=
  (sortedSetDiff new_state.space_ids old_state.space_ids).map
    (fun sid => ("HIGH", "New Space: " ++ sid))

/-- Second loop of `detect_changes`:
`for mid in sorted(new_models): changes.append(("MEDIUM", f"New Model: {mid}"))`. -/
def newModelChanges (old_state new_state : Snapshot) : List Change :=
  (sortedSetDiff new_state.model_ids old_state.model_ids).map
    (fun mid => ("MEDIUM", "New Model: " ++ mid))

/-- The freshness token the third block of `detect_changes` reads:
`state.get("watched_space", {}).get("sha")`. -/
def watchedToken (state : Snapshot) : Option String :=
  (state.watched_space.getD emptyDetail).sha

/-- The change entry appended for a watched-space update:
`("MEDIUM", f"Puzzle space updated (sha: {new_detail['sha'][:12]})")`.
In the branch that appends it the token is a present, non-empty string,
which `.getD ""` extracts from the `Option`. -/
def watchedEntry (new_state : Snapshot) : Change :=
  ("MEDIUM", "Puzzle space updated (sha: " ++ ((watchedToken new_state).getD "").take 12 ++ ")")

/-- Third block of `detect_changes`: compare the `sha` of the watched space,
only when it is present and non-empty on both sides. -/
def watchedSpaceChange (old_state new_state : Snapshot) : List Change :=
  let old_detail := old_state.watched_space.getD emptyDetail
  let new_detail := new_state.watched_space.getD emptyDetail
  if truthy old_detail.sha && truthy new_detail.sha then
    if old_detail.sha ≠ new_detail.sha then [watchedEntry new_state] else []
  else []

/-- Embedding of `detect_changes(old_state, new_state)`: the three blocks append to the
same `changes` list, in source order. -/
def detect_changes (old_state new_state : Snapshot) : List Change :=
  newSpaceChanges old_state new_state ++ newModelChanges old_state new_state ++
    watchedSpaceChange old_state new_state

/-- The `JANE_STREET_ORG` constant of the script. -/
def JANE_STREET_ORG : String := "jane-street"

/-- Lookup `priority_icons.get(priority, "ℹ️")` in `format_alert`. -/
def priorityIcon (priority : String) : String :=
  if priority == "HIGH" then "🚨"
  else if priority == "MEDIUM" then "📦"
  else "ℹ️"

/-- Embedding of `format_alert(changes)`: header line, one line per change, footer link,
joined with newlines. -/
def format_alert (changes : List Change) : String :=
  String.intercalate "\n"
    (["<b>Jane Street HuggingFace Activity</b>\n"] ++
      changes.map (fun c => priorityIcon c.1 ++ " [" ++ c.1 ++ "] " ++ c.2) ++
      ["\nhttps://huggingface.co/" ++ JANE_STREET_ORG])

/-- Outcome of one `requests.get` call: either the request raised
(`requests.RequestException`: connection error, timeout, ...) or an HTTP
response arrived with some status code and a body; `body = none` models a
body on which `.json()` raises (malformed JSON). -/
inductive FetchOutcome (α : Type) where
  | netError : FetchOutcome α
  | response (status : Nat) (body : Option α) : FetchOutcome α
deriving DecidableEq

/-- The exception classes caught by `main`'s
`except (requests.RequestException, ValueError)`. -/
inductive FetchError where
  | requestError : FetchError
  | httpError (status : Nat) : FetchError
  | valueError : FetchError
deriving DecidableEq

/-- Intermediate result of `fetch_repo_lists`: the two sorted id lists. -/
structure RepoLists where
  space_ids : List String
  model_ids : List String
deriving DecidableEq

/-- Embedding of `fetch_repo_lists()`: GET the spaces listing, `.json()` it, GET the
models listing, `.json()` it, return the two id lists sorted.  Neither
response's HTTP status is inspected (the source calls `.json()` directly
on the `requests.get(...)` result, with no `raise_for_status`). -/
def fetch_repo_lists (spacesOut modelsOut : FetchOutcome (List RepoItem)) :
    Except FetchError RepoLists :=
  match spacesOut with
  | FetchOutcome.netError => Except.error FetchError.requestError
  | FetchOutcome.response _ spacesBody =>
    match spacesBody with
    | none => Except.error FetchError.valueError
    | some spaces =>
      match modelsOut with
      | FetchOutcome.netError => Except.error FetchError.requestError
      | FetchOutcome.response _ modelsBody =>
        match modelsBody with
        | none => Except.error FetchError.valueError
        | some models =>
          Except.ok
            { space_ids := List.insertionSort strle (spaces.map RepoItem.id),
              model_ids := List.insertionSort strle (models.map RepoItem.id) }

/-- Embedding of `fetch_space_detail(space_id)`: GET the detail record, then
`resp.raise_for_status()` — which raises `requests.HTTPError` exactly for
status codes in 400–599 — then `.json()` and project the two keys. -/
def fetch_space_detail (out : FetchOutcome WatchedDetail) :
    Except FetchError WatchedDetail :=
  match out with
  | FetchOutcome.netError => Except.error FetchError.requestError
  | FetchOutcome.response status body =>
    if 400 ≤ status ∧ status < 600 then Except.error (FetchError.httpError status)
    else
      match body with
      | none => Except.error FetchError.valueError
      | some d => Except.ok d

/-- Console output of one run, one constructor per `print` call site. -/
inductive PrintEvent where
  | fetchFailed (e : FetchError) : PrintEvent
  | firstRun : PrintEvent
  | noChanges : PrintEvent
  | detectedChanges (n : Nat) (sent : Bool) : PrintEvent
  | telegramNotConfigured (message : String) : PrintEvent
  | telegramApiError (status : Nat) : PrintEvent
deriving DecidableEq

/-- Outcome of the one `requests.post` call in `send_telegram`. -/
inductive PostOutcome where
  | netError : PostOutcome
  | response (status : Nat) : PostOutcome
deriving DecidableEq

/-- What a call to `send_telegram` did.  `returned = none` means the POST
raised `requests.RequestException`; nothing in `send_telegram` (or in
`main`) catches it, so the exception escapes. -/
structure SendOutput where
  returned : Option Bool
  printed : List PrintEvent
  postIssued : Bool
deriving DecidableEq

/-- Embedding of `send_telegram(message)`.  Here `token`/`chat_id` are
`os.environ.get("TELEGRAM_BOT_TOKEN")` / `("TELEGRAM_CHAT_ID")`; `none`
models an unset variable and `if not token or not chat_id` is Python
truthiness, so an empty string counts as missing too.  `resp.ok` is
`status < 400`. -/
def send_telegram (token chat_id : Option String) (message : String)
    (post : PostOutcome) : SendOutput :=
  if !truthy token || !truthy chat_id then
    { returned := some false,
      printed := [PrintEvent.telegramNotConfigured message],
      postIssued := false }
  else
    match post with
    | PostOutcome.netError =>
      { returned := none, printed := [], postIssued := true }
    | PostOutcome.response status =>
      if status < 400 then
        { returned := some true, printed := [], postIssued := true }
      else
        { returned := some false,
          printed := [PrintEvent.telegramApiError status],
          postIssued := true }

/-- The ambient world of one invocation: the outcomes the three GETs and
the POST would have, the parse of the state file if it exists
(`load_state()`), the two credential environment variables, and the
timestamp `datetime.now(timezone.utc).isoformat()`. -/
structure RunEnv where
  spacesResp : FetchOutcome (List RepoItem)
  modelsResp : FetchOutcome (List RepoItem)
  detailResp : FetchOutcome WatchedDetail
  priorState : Option Snapshot
  botToken : Option String
  chatId : Option String
  postResp : PostOutcome
  now : String
deriving DecidableEq

/-- Observable behaviour of one invocation.  `savedState` is the snapshot
written by `save_state` this run (`none`: file untouched); `crashed` is an
uncaught exception (traceback, interpreter exit code 1). -/
structure RunResult where
  exitCode : Nat
  savedState : Option Snapshot
  posted : Bool
  sent : Option Bool
  changes : List Change
  printed : List PrintEvent
  crashed : Bool
deriving DecidableEq

/-- Number of occurrences of the change entry `c` in a change list; used to
state "yields exactly one change entry". -/
def countChange (c : Change) (l : List Change) : Nat :=
  (l.filter (fun d => decide (d = c))).length

/-- Result of the `except` clause in `main`: print and `sys.exit(1)`. -/
def fetchFailResult (e : FetchError) : RunResult :=
  { exitCode := 1, savedState := none, posted := false, sent := none,
    changes := [], printed := [PrintEvent.fetchFailed e], crashed := false }

/-- The `new_state` dict built by `main`:
`{**repos, "watched_space": space_detail, "checked_at": ...}`. -/
def newStateOf (env : RunEnv) (repos : RepoLists) (space_detail : WatchedDetail) : Snapshot :=
  { space_ids := repos.space_ids, model_ids := repos.model_ids,
    watched_space := some space_detail, checked_at := env.now }

/-- Tail of `main` once an old snapshot exists: diff, notify when the change
list is non-empty (`if changes:`), then `save_state(new_state)` — which an
uncaught exception from `send_telegram` prevents. -/
def notifyAndSave (env : RunEnv) (old_state new_state : Snapshot) : RunResult :=
  let changes := detect_changes old_state new_state
  if changes.isEmpty then
    { exitCode := 0, savedState := some new_state, posted := false,
      sent := none, changes := changes,
      printed := [PrintEvent.noChanges], crashed := false }
  else
    let message := format_alert changes
    let s := send_telegram env.botToken env.chatId message env.postResp
    match s.returned with
    | none =>
      { exitCode := 1, savedState := none, posted := s.postIssued,
        sent := none, changes := changes, printed := s.printed,
        crashed := true }
    | some sentFlag =>
      { exitCode := 0, savedState := some new_state,
        posted := s.postIssued, sent := some sentFlag,
        changes := changes,
        printed := s.printed ++ [PrintEvent.detectedChanges changes.length sentFlag],
        crashed := false }

/-- Tail of `main` after the fetches succeeded: `old_state = load_state()`, with the
first-run short-circuit (print, save, return). -/
def afterFetch (env : RunEnv) (new_state : Snapshot) : RunResult :=
  match env.priorState with
  | none =>
    { exitCode := 0, savedState := some new_state, posted := false,
      sent := none, changes := [], printed := [PrintEvent.firstRun],
      crashed := false }
  | some old_state => notifyAndSave env old_state new_state

/-- Embedding of `main()`: the `try` block fetches listings and detail and on either
exception prints and exits 1; otherwise the run continues with `afterFetch`.
(Named `runMain` because Lean reserves `main` for an executable entry
point.) -/
def runMain (env : RunEnv) : RunResult :=
  match fetch_repo_lists env.spacesResp env.modelsResp with
  | Except.error e => fetchFailResult e
  | Except.ok repos =>
    match fetch_space_detail env.detailResp with
    | Except.error e => fetchFailResult e
    | Except.ok space_detail => afterFetch env (newStateOf env repos space_detail)

/-! Concrete snapshots and environments used to instantiate the theorems
below on closed inputs. -/

/-- A snapshot as an earlier run would have persisted it. -/
def snapA : Snapshot :=
  { space_ids := ["jane-street/s1"], model_ids := ["jane-street/m1"],
    watched_space := some { sha := some "aaaa1111bbbb2222",
                            lastModified := some "2026-01-01T00:00:00.000Z" },
    checked_at := "2026-01-01T00:00:00+00:00" }

/-- A later snapshot: one new space, one new model, changed sha. -/
def snapB : Snapshot :=
  { space_ids := ["jane-street/s1", "jane-street/s2"],
    model_ids := ["jane-street/m1", "jane-street/m2"],
    watched_space := some { sha := some "cccc3333dddd4444",
                            lastModified := some "2026-01-02T00:00:00.000Z" },
    checked_at := "2026-01-02T00:00:00+00:00" }

/-- Same listings and sha as `snapA`, different `checked_at` and
`lastModified`. -/
def snapA2 : Snapshot :=
  { space_ids := ["jane-street/s1"], model_ids := ["jane-street/m1"],
    watched_space := some { sha := some "aaaa1111bbbb2222", lastModified := none },
    checked_at := "2031-05-05T12:34:56+00:00" }

/-- Same listings and sha as `snapB`, different `checked_at` and
`lastModified`. -/
def snapB2 : Snapshot :=
  { space_ids := ["jane-street/s1", "jane-street/s2"],
    model_ids := ["jane-street/m1", "jane-street/m2"],
    watched_space := some { sha := some "cccc3333dddd4444",
                            lastModified := some "1999-01-01T00:00:00.000Z" },
    checked_at := "2031-05-05T12:34:57+00:00" }

/-- First-run environment: fetches succeed, no state file on disk. -/
def envFirstRun : RunEnv :=
  { spacesResp := FetchOutcome.response 200 (some [{ id := "jane-street/s1" }]),
    modelsResp := FetchOutcome.response 200 (some [{ id := "jane-street/m1" }]),
    detailResp := FetchOutcome.response 200
      (some { sha := some "aaaa1111bbbb2222",
              lastModified := some "2026-01-01T00:00:00.000Z" }),
    priorState := none,
    botToken := some "123:abc", chatId := some "42",
    postResp := PostOutcome.response 200,
    now := "2026-01-01T00:00:00+00:00" }

/-- All three fetches succeed, a change is detected, credentials are set,
and the Telegram POST raises a `requests.RequestException`. -/
def envPostRaisesA : RunEnv :=
  { spacesResp := FetchOutcome.response 200
      (some [{ id := "jane-street/s1" }, { id := "jane-street/s2" }]),
    modelsResp := FetchOutcome.response 200 (some [{ id := "jane-street/m1" }]),
    detailResp := FetchOutcome.response 200
      (some { sha := some "aaaa1111bbbb2222",
              lastModified := some "2026-01-02T00:00:00.000Z" }),
    priorState := some snapA,
    botToken := some "123:abc", chatId := some "42",
    postResp := PostOutcome.netError,
    now := "2026-01-02T00:00:00+00:00" }

/-- Same situation through a new model instead of a new space. -/
def envPostRaisesB : RunEnv :=
  { spacesResp := FetchOutcome.response 200 (some [{ id := "jane-street/s1" }]),
    modelsResp := FetchOutcome.response 200
      (some [{ id := "jane-street/m1" }, { id := "jane-street/m9" }]),
    detailResp := FetchOutcome.response 200
      (some { sha := some "aaaa1111bbbb2222",
              lastModified := some "2026-01-02T00:00:00.000Z" }),
    priorState := some snapA,
    botToken := some "123:abc", chatId := some "42",
    postResp := PostOutcome.netError,
    now := "2026-01-02T00:00:00+00:00" }

/-- The spaces listing call answers 404 — a non-2xx status — with a valid
JSON body `[]`; everything else matches the prior snapshot. -/
def envListing404 : RunEnv :=
  { spacesResp := FetchOutcome.response 404 (some []),
    modelsResp := FetchOutcome.response 200 (some [{ id := "jane-street/m1" }]),
    detailResp := FetchOutcome.response 200
      (some { sha := some "aaaa1111bbbb2222",
              lastModified := some "2026-01-02T00:00:00.000Z" }),
    priorState := some { space_ids := [], model_ids := ["jane-street/m1"],
                         watched_space := some { sha := some "aaaa1111bbbb2222",
                                                 lastModified := none },
                         checked_at := "2026-01-01T00:00:00+00:00" },
    botToken := none, chatId := none,
    postResp := PostOutcome.response 200,
    now := "2026-01-02T00:00:00+00:00" }

/-- The spaces listing request raises a network error. -/
def envSpacesNetError : RunEnv :=
  { spacesResp := FetchOutcome.netError,
    modelsResp := FetchOutcome.response 200 (some []),
    detailResp := FetchOutcome.response 200
      (some { sha := some "aaaa1111bbbb2222", lastModified := none }),
    priorState := some snapA,
    botToken := none, chatId := none,
    postResp := PostOutcome.response 200,
    now := "2026-01-02T00:00:00+00:00" }

/-- First run whose spaces listing contains the same id twice. -/
def envDupListing : RunEnv :=
  { spacesResp := FetchOutcome.response 200
      (some [{ id := "jane-street/alpha" }, { id := "jane-street/alpha" }]),
    modelsResp := FetchOutcome.response 200 (some [{ id := "jane-street/m1" }]),
    detailResp := FetchOutcome.response 200
      (some { sha := some "aaaa1111bbbb2222", lastModified := none }),
    priorState := none,
    botToken := none, chatId := none,
    postResp := PostOutcome.response 200,
    now := "2026-01-02T00:00:00+00:00" }

/-- First run with duplicate-free listings. -/
def envCleanListing : RunEnv :=
  { spacesResp := FetchOutcome.response 200
      (some [{ id := "jane-street/beta" }, { id := "jane-street/alpha" }]),
    modelsResp := FetchOutcome.response 200 (some [{ id := "jane-street/m1" }]),
    detailResp := FetchOutcome.response 200
      (some { sha := some "aaaa1111bbbb2222", lastModified := none }),
    priorState := none,
    botToken := none, chatId := none,
    postResp := PostOutcome.response 200,
    now := "2026-01-02T00:00:00+00:00" }

/-- The snapshot `runMain envCleanListing` persists. -/
def snapClean : Snapshot :=
  { space_ids := ["jane-street/alpha", "jane-street/beta"],
    model_ids := ["jane-street/m1"],
    watched_space := some { sha := some "aaaa1111bbbb2222", lastModified := none },
    checked_at := "2026-01-02T00:00:00+00:00" }

/-- The outcomes of a listing call on which the run aborts: a raised request
or a body `.json()` chokes on.  (The HTTP status is deliberately absent: the
source never checks it for the listing calls.) -/
def listingFetchFails (out : FetchOutcome (List RepoItem)) : Prop :=
  match out with
  | FetchOutcome.netError => True
  | FetchOutcome.response _ body => body = none

/-- The outcomes of the detail call on which the run aborts: a raised
request, a status `raise_for_status` throws on (400–599), or a malformed
body. -/
def detailFetchFails (out : FetchOutcome WatchedDetail) : Prop :=
  match out with
  | FetchOutcome.netError => True
  | FetchOutcome.response status body => (400 ≤ status ∧ status < 600) ∨ body = none

/-! Order facts about the code-point comparison. -/

/-- The map `Char.toNat` is injective: equal code points are equal characters. -/
theorem char_toNat_inj {a b : Char} (h : a.toNat = b.toNat) : a = b := by
  unfold Char.toNat at h
  exact Char.eq_of_val_eq (UInt32.toNat.inj h)

/-- The relation `codeLt` is asymmetric. -/
theorem codeLt_asymm : ∀ x y, codeLt x y = true → codeLt y x = false
  | _ :: _, [], h => by simp [codeLt] at h
  | [], [], h => by simp [codeLt] at h
  | [], _ :: _, _ => by simp [codeLt]
  | a :: as, b :: bs, h => by
    simp only [codeLt] at h ⊢
    by_cases h1 : a.toNat < b.toNat
    · rw [if_neg (by omega), if_pos h1]
    · by_cases h2 : b.toNat < a.toNat
      · rw [if_neg h1, if_pos h2] at h
        exact absurd h (by simp)
      · rw [if_neg h1, if_neg h2] at h
        rw [if_neg h2, if_neg h1]
        exact codeLt_asymm as bs h

/-- Antisymmetry of the negation of `codeLt`. -/
theorem codeLt_antisymm : ∀ x y, codeLt x y = false → codeLt y x = false → x = y
  | [], [], _, _ => rfl
  | [], _ :: _, h1, _ => by simp [codeLt] at h1
  | _ :: _, [], _, h2 => by simp [codeLt] at h2
  | a :: as, b :: bs, h1, h2 => by
    simp only [codeLt] at h1 h2
    by_cases hab : a.toNat < b.toNat
    · rw [if_pos hab] at h1
      exact absurd h1 (by simp)
    · by_cases hba : b.toNat < a.toNat
      · rw [if_pos hba] at h2
        exact absurd h2 (by simp)
      · have hc : a = b := char_toNat_inj (by omega)
        subst hc
        rw [if_neg hab, if_neg hba] at h1 h2
        rw [codeLt_antisymm as bs h1 h2]

/-- Transitivity of `codeLt`. -/
theorem codeLt_trans : ∀ x y z, codeLt x y = true → codeLt y z = true → codeLt x z = true
  | _, y, [], _, h2 => by simp [codeLt] at h2
  | x, [], _ :: _, h1, _ => by simp [codeLt] at h1
  | [], _ :: _, _ :: _, _, _ => by simp [codeLt]
  | a :: as, b :: bs, c :: cs, h1, h2 => by
    simp only [codeLt] at h1 h2 ⊢
    by_cases hab : a.toNat < b.toNat
    · by_cases hbc : b.toNat < c.toNat
      · rw [if_pos (by omega)]
      · by_cases hcb : c.toNat < b.toNat
        · rw [if_neg hbc, if_pos hcb] at h2
          exact absurd h2 (by simp)
        · rw [if_pos (by omega)]
    · by_cases hba : b.toNat < a.toNat
      · rw [if_neg hab, if_pos hba] at h1
        exact absurd h1 (by simp)
      · rw [if_neg hab, if_neg hba] at h1
        by_cases hbc : b.toNat < c.toNat
        · rw [if_pos (by omega)]
        · by_cases hcb : c.toNat < b.toNat
          · rw [if_neg hbc, if_pos hcb] at h2
            exact absurd h2 (by simp)
          · rw [if_neg hbc, if_neg hcb] at h2
            rw [if_neg (by omega), if_neg (by omega)]
            exact codeLt_trans as bs cs h1 h2

/-- The Python string order is total. -/
theorem strle_total (s t : String) : strle s t ∨ strle t s := by
  unfold strle
  rcases Bool.eq_false_or_eq_true (codeLt t.data s.data) with h | h
  · exact Or.inr (codeLt_asymm _ _ h)
  · exact Or.inl h

/-- The Python string order is transitive. -/
theorem strle_trans {a b c : String} (h1 : strle a b) (h2 : strle b c) : strle a c := by
  unfold strle at h1 h2 ⊢
  rcases Bool.eq_false_or_eq_true (codeLt c.data a.data) with h | h
  · exfalso
    rcases Bool.eq_false_or_eq_true (codeLt a.data b.data) with hab | hab
    · exact absurd (codeLt_trans _ _ _ h hab) (by simp [h2])
    · have he : a.data = b.data := codeLt_antisymm _ _ hab h1
      rw [he] at h
      exact absurd (h2.symm.trans h) (by simp)
  · exact h

/-! Facts about `sortedSetDiff`. -/

/-- Membership in the sorted set difference. -/
theorem mem_sortedSetDiff {x : String} {new old : List String} :
    x ∈ sortedSetDiff new old ↔ x ∈ new ∧ x ∉ old := by
  unfold sortedSetDiff
  rw [(List.perm_insertionSort strle _).mem_iff, List.mem_dedup, List.mem_filter]
  simp

/-- The sorted set difference has no duplicates. -/
theorem nodup_sortedSetDiff (new old : List String) : (sortedSetDiff new old).Nodup :=
  (List.perm_insertionSort strle _).nodup_iff.mpr (List.nodup_dedup _)

/-- Diffing a list against itself leaves nothing. -/
theorem sortedSetDiff_self (l : List String) : sortedSetDiff l l = [] := by
  rw [List.eq_nil_iff_forall_not_mem]
  intro x hx
  exact (mem_sortedSetDiff.mp hx).2 (mem_sortedSetDiff.mp hx).1

/-! Facts about `countChange`. -/

/-- Counting over a cons. -/
theorem countChange_cons (c d : Change) (l : List Change) :
    countChange c (d :: l) = (if d = c then 1 else 0) + countChange c l := by
  by_cases h : d = c
  · simp [countChange, List.filter_cons, h, Nat.add_comm]
  · simp [countChange, List.filter_cons, h]

/-- Counting distributes over append. -/
theorem countChange_append (c : Change) (l₁ l₂ : List Change) :
    countChange c (l₁ ++ l₂) = countChange c l₁ + countChange c l₂ := by
  simp [countChange, List.filter_append]

/-- A list without occurrences of `c` counts zero. -/
theorem countChange_eq_zero {c : Change} {l : List Change} (h : ∀ d ∈ l, d ≠ c) :
    countChange c l = 0 := by
  rw [countChange, List.length_eq_zero, List.filter_eq_nil_iff]
  intro d hd
  simp only [decide_eq_true_eq]
  exact h d hd

/-- Counting `c` in the one-element list `[c]`. -/
theorem countChange_singleton (c : Change) : countChange c [c] = 1 := by
  simp [countChange]

/-- Counting in the empty list. -/
theorem countChange_nil (c : Change) : countChange c [] = 0 := rfl

/-- Mapping an injective entry constructor over a duplicate-free list yields
each entry exactly once. -/
theorem countChange_map_eq_one {f : String → Change} (hf : ∀ a b, f a = f b → a = b)
    {l : List String} (hl : l.Nodup) {x : String} (hx : x ∈ l) :
    countChange (f x) (l.map f) = 1 := by
  induction l with
  | nil => cases hx
  | cons a t ih =>
    rw [List.map_cons, countChange_cons]
    rcases List.mem_cons.mp hx with rfl | ht
    · rw [if_pos rfl]
      have h0 : countChange (f x) (t.map f) = 0 := by
        apply countChange_eq_zero
        intro d hd
        obtain ⟨y, hy, rfl⟩ := List.mem_map.mp hd
        intro he
        have hyx : y = x := hf y x he
        subst hyx
        exact (List.nodup_cons.mp hl).1 hy
      rw [h0]
    · have hne : ¬ f a = f x := by
        intro he
        have hax : a = x := hf a x he
        subst hax
        exact (List.nodup_cons.mp hl).1 ht
      rw [if_neg hne, ih (List.nodup_cons.mp hl).2 ht]

/-! String-shape facts about the three message families. -/

/-- Strings whose first `n` code points differ are different. -/
theorem string_ne_of_take (n : Nat) {a b : String} (h : ¬ a.data.take n = b.data.take n) :
    a ≠ b :=
  fun he => h (by rw [he])

/-- Appending to a fixed prefix is injective. -/
theorem string_append_cancel {p x y : String} (h : p ++ x = p ++ y) : x = y := by
  have h2 : (p ++ x).data = (p ++ y).data := by rw [h]
  rw [String.data_append, String.data_append] at h2
  exact String.ext (List.append_cancel_left h2)

/-- A "New Model" message is never a "Puzzle space updated" message. -/
theorem newModel_ne_puzzle (x y z : String) :
    "New Model: " ++ x ≠ "Puzzle space updated (sha: " ++ y ++ z := by
  apply string_ne_of_take 1
  simp only [String.data_append]
  rw [List.append_assoc]
  have h1 : ("New Model: ".data ++ x.data).take 1 = "New Model: ".data.take 1 :=
    List.take_eq_left_iff.mpr (Or.inr (by decide))
  have h2 : ("Puzzle space updated (sha: ".data ++ (y.data ++ z.data)).take 1 =
      "Puzzle space updated (sha: ".data.take 1 :=
    List.take_eq_left_iff.mpr (Or.inr (by decide))
  rw [h1, h2]
  decide

/-! Shape of the entries each block of `detect_changes` produces. -/

/-- Every space-block entry is `("HIGH", "New Space: " ++ s)` for a freshly
appeared space id `s`. -/
theorem mem_newSpaceChanges {old_state new_state : Snapshot} {c : Change}
    (h : c ∈ newSpaceChanges old_state new_state) :
    ∃ s, c = ("HIGH", "New Space: " ++ s) ∧
      s ∈ new_state.space_ids ∧ s ∉ old_state.space_ids := by
  obtain ⟨s, hs, rfl⟩ := List.mem_map.mp h
  exact ⟨s, rfl, (mem_sortedSetDiff.mp hs).1, (mem_sortedSetDiff.mp hs).2⟩

/-- Every model-block entry is `("MEDIUM", "New Model: " ++ m)` for a freshly
appeared model id `m`. -/
theorem mem_newModelChanges {old_state new_state : Snapshot} {c : Change}
    (h : c ∈ newModelChanges old_state new_state) :
    ∃ m, c = ("MEDIUM", "New Model: " ++ m) ∧
      m ∈ new_state.model_ids ∧ m ∉ old_state.model_ids := by
  obtain ⟨m, hm, rfl⟩ := List.mem_map.mp h
  exact ⟨m, rfl, (mem_sortedSetDiff.mp hm).1, (mem_sortedSetDiff.mp hm).2⟩

/-- The let-bindings of `watchedSpaceChange` spelled out via `watchedToken`. -/
theorem watchedSpaceChange_eq (old_state new_state : Snapshot) :
    watchedSpaceChange old_state new_state =
      if truthy (watchedToken old_state) && truthy (watchedToken new_state) then
        if watchedToken old_state ≠ watchedToken new_state then [watchedEntry new_state]
        else []
      else [] := rfl

/-- The sha block emits nothing but the watched entry. -/
theorem mem_watchedSpaceChange {old_state new_state : Snapshot} {c : Change}
    (h : c ∈ watchedSpaceChange old_state new_state) : c = watchedEntry new_state := by
  rw [watchedSpaceChange_eq] at h
  by_cases h1 : (truthy (watchedToken old_state) && truthy (watchedToken new_state)) = true
  · rw [if_pos h1] at h
    by_cases h2 : watchedToken old_state ≠ watchedToken new_state
    · rw [if_pos h2] at h
      exact List.mem_singleton.mp h
    · rw [if_neg h2] at h
      exact absurd h (List.not_mem_nil c)
  · rw [if_neg h1] at h
    exact absurd h (List.not_mem_nil c)

/-- Entries whose priority is not `"HIGH"` do not occur in the space block. -/
theorem countChange_newSpaceChanges_ne_high {old_state new_state : Snapshot} {c : Change}
    (h : c.1 ≠ "HIGH") : countChange c (newSpaceChanges old_state new_state) = 0 := by
  apply countChange_eq_zero
  intro d hd he
  obtain ⟨s, rfl, -, -⟩ := mem_newSpaceChanges hd
  exact h (by rw [← he])

/-- Entries whose priority is not `"MEDIUM"` do not occur in the model block. -/
theorem countChange_newModelChanges_ne_medium {old_state new_state : Snapshot} {c : Change}
    (h : c.1 ≠ "MEDIUM") : countChange c (newModelChanges old_state new_state) = 0 := by
  apply countChange_eq_zero
  intro d hd he
  obtain ⟨m, rfl, -, -⟩ := mem_newModelChanges hd
  exact h (by rw [← he])

/-- Entries whose priority is not `"MEDIUM"` do not occur in the sha block. -/
theorem countChange_watchedSpaceChange_ne_medium {old_state new_state : Snapshot} {c : Change}
    (h : c.1 ≠ "MEDIUM") : countChange c (watchedSpaceChange old_state new_state) = 0 := by
  apply countChange_eq_zero
  intro d hd he
  rw [mem_watchedSpaceChange hd] at he
  exact h (by rw [← he]; rfl)

/-- Entries of the "New Model" family do not occur in the sha block. -/
theorem countChange_newModel_watchedSpaceChange (old_state new_state : Snapshot)
    (x : String) :
    countChange ("MEDIUM", "New Model: " ++ x) (watchedSpaceChange old_state new_state) = 0 := by
  apply countChange_eq_zero
  intro d hd he
  rw [mem_watchedSpaceChange hd] at he
  have h2 := congrArg Prod.snd he
  exact newModel_ne_puzzle x _ ")" h2.symm

/-- The watched entry does not occur in the model block. -/
theorem countChange_watchedEntry_newModelChanges (old_state new_state m : Snapshot) :
    countChange (watchedEntry m) (newModelChanges old_state new_state) = 0 := by
  apply countChange_eq_zero
  intro d hd he
  obtain ⟨s, rfl, -, -⟩ := mem_newModelChanges hd
  have h2 := congrArg Prod.snd he
  exact newModel_ne_puzzle s _ ")" h2

/-- Exactly-once count of a space entry in the space block. -/
theorem countChange_newSpaceChanges_eq (old_state new_state : Snapshot) (x : String) :
    countChange ("HIGH", "New Space: " ++ x) (newSpaceChanges old_state new_state) =
      if x ∈ new_state.space_ids ∧ x ∉ old_state.space_ids then 1 else 0 := by
  unfold newSpaceChanges
  by_cases h : x ∈ new_state.space_ids ∧ x ∉ old_state.space_ids
  · rw [if_pos h]
    exact @countChange_map_eq_one (fun sid => ("HIGH", "New Space: " ++ sid))
      (fun a b he => string_append_cancel (congrArg Prod.snd he))
      _ (nodup_sortedSetDiff _ _) x (mem_sortedSetDiff.mpr h)
  · rw [if_neg h]
    apply countChange_eq_zero
    intro d hd he
    obtain ⟨s, hs, rfl⟩ := List.mem_map.mp hd
    have hsx : s = x := string_append_cancel (congrArg Prod.snd he)
    subst hsx
    exact h (mem_sortedSetDiff.mp hs)

/-- Exactly-once count of a model entry in the model block. -/
theorem countChange_newModelChanges_eq (old_state new_state : Snapshot) (x : String) :
    countChange ("MEDIUM", "New Model: " ++ x) (newModelChanges old_state new_state) =
      if x ∈ new_state.model_ids ∧ x ∉ old_state.model_ids then 1 else 0 := by
  unfold newModelChanges
  by_cases h : x ∈ new_state.model_ids ∧ x ∉ old_state.model_ids
  · rw [if_pos h]
    exact @countChange_map_eq_one (fun mid => ("MEDIUM", "New Model: " ++ mid))
      (fun a b he => string_append_cancel (congrArg Prod.snd he))
      _ (nodup_sortedSetDiff _ _) x (mem_sortedSetDiff.mpr h)
  · rw [if_neg h]
    apply countChange_eq_zero
    intro d hd he
    obtain ⟨m, hm, rfl⟩ := List.mem_map.mp hd
    have hmx : m = x := string_append_cancel (congrArg Prod.snd he)
    subst hmx
    exact h (mem_sortedSetDiff.mp hm)

/-! Behaviour of the sha block under the four token situations. -/

/-- Both tokens truthy and different: the sha block is exactly the watched
entry. -/
theorem watchedSpaceChange_pos {old_state new_state : Snapshot}
    (h1 : truthy (watchedToken old_state) = true)
    (h2 : truthy (watchedToken new_state) = true)
    (h3 : watchedToken old_state ≠ watchedToken new_state) :
    watchedSpaceChange old_state new_state = [watchedEntry new_state] := by
  rw [watchedSpaceChange_eq, h1, h2]
  simp [h3]

/-- A missing or empty token on either side: the sha block is empty. -/
theorem watchedSpaceChange_not_truthy {old_state new_state : Snapshot}
    (h : ¬ (truthy (watchedToken old_state) = true ∧
        truthy (watchedToken new_state) = true)) :
    watchedSpaceChange old_state new_state = [] := by
  rw [watchedSpaceChange_eq]
  have hc : ¬ ((truthy (watchedToken old_state) && truthy (watchedToken new_state)) = true) := by
    simp only [Bool.and_eq_true]
    exact h
  rw [if_neg hc]

/-- Equal tokens: the sha block is empty. -/
theorem watchedSpaceChange_token_eq {old_state new_state : Snapshot}
    (h : watchedToken old_state = watchedToken new_state) :
    watchedSpaceChange old_state new_state = [] := by
  rw [watchedSpaceChange_eq, h]
  simp

/-- Splitting a count over the three blocks of `detect_changes`. -/
theorem countChange_detect_changes (old_state new_state : Snapshot) (c : Change) :
    countChange c (detect_changes old_state new_state) =
      countChange c (newSpaceChanges old_state new_state) +
      countChange c (newModelChanges old_state new_state) +
      countChange c (watchedSpaceChange old_state new_state) := by
  unfold detect_changes
  rw [countChange_append, countChange_append]

/-- C1: an identifier present in the new listings but absent from the old
ones yields exactly one change entry — `HIGH` for a space id, `MEDIUM` for a
model id — and an identifier present in both snapshots yields none. -/
theorem C1_new_listing_ids (old_state new_state : Snapshot) (x : String) :
    (x ∈ new_state.space_ids ∧ x ∉ old_state.space_ids →
      countChange ("HIGH", "New Space: " ++ x) (detect_changes old_state new_state) = 1) ∧
    (x ∈ new_state.space_ids ∧ x ∈ old_state.space_ids →
      countChange ("HIGH", "New Space: " ++ x) (detect_changes old_state new_state) = 0) ∧
    (x ∈ new_state.model_ids ∧ x ∉ old_state.model_ids →
      countChange ("MEDIUM", "New Model: " ++ x) (detect_changes old_state new_state) = 1) ∧
    (x ∈ new_state.model_ids ∧ x ∈ old_state.model_ids →
      countChange ("MEDIUM", "New Model: " ++ x) (detect_changes old_state new_state) = 0) := by
  refine ⟨?_, ?_, ?_, ?_⟩
  · intro h
    rw [countChange_detect_changes, countChange_newSpaceChanges_eq, if_pos h,
        countChange_newModelChanges_ne_medium (show ("HIGH" : String) ≠ "MEDIUM" by decide),
        countChange_watchedSpaceChange_ne_medium (show ("HIGH" : String) ≠ "MEDIUM" by decide)]
  · intro h
    rw [countChange_detect_changes, countChange_newSpaceChanges_eq,
        if_neg (fun hc => hc.2 h.2),
        countChange_newModelChanges_ne_medium (show ("HIGH" : String) ≠ "MEDIUM" by decide),
        countChange_watchedSpaceChange_ne_medium (show ("HIGH" : String) ≠ "MEDIUM" by decide)]
  · intro h
    rw [countChange_detect_changes, countChange_newModelChanges_eq, if_pos h,
        countChange_newSpaceChanges_ne_high (show ("MEDIUM" : String) ≠ "HIGH" by decide),
        countChange_newModel_watchedSpaceChange]
  · intro h
    rw [countChange_detect_changes, countChange_newModelChanges_eq,
        if_neg (fun hc => hc.2 h.2),
        countChange_newSpaceChanges_ne_high (show ("MEDIUM" : String) ≠ "HIGH" by decide),
        countChange_newModel_watchedSpaceChange]

/-- C1 witness at concrete snapshots: `jane-street/s2` and `jane-street/m2`
are new, `jane-street/s1` and `jane-street/m1` are present in both. -/
theorem C1_new_listing_ids_witness :
    countChange ("HIGH", "New Space: " ++ "jane-street/s2") (detect_changes snapA snapB) = 1 ∧
    countChange ("MEDIUM", "New Model: " ++ "jane-street/m2") (detect_changes snapA snapB) = 1 ∧
    countChange ("HIGH", "New Space: " ++ "jane-street/s1") (detect_changes snapA snapB) = 0 ∧
    countChange ("MEDIUM", "New Model: " ++ "jane-street/m1") (detect_changes snapA snapB) = 0 :=
  ⟨(C1_new_listing_ids snapA snapB "jane-street/s2").1 ⟨by decide, by decide⟩,
   (C1_new_listing_ids snapA snapB "jane-street/m2").2.2.1 ⟨by decide, by decide⟩,
   (C1_new_listing_ids snapA snapB "jane-street/s1").2.1 ⟨by decide, by decide⟩,
   (C1_new_listing_ids snapA snapB "jane-street/m1").2.2.2 ⟨by decide, by decide⟩⟩

/-- C2: `detect_changes` emits the watched-space entry exactly once iff the
freshness token is present and non-empty on both sides and differs; when it
is missing or empty on either side no watched-space entry appears at all. -/
theorem C2_watched_freshness (old_state new_state : Snapshot) :
    (countChange (watchedEntry new_state) (detect_changes old_state new_state) = 1 ↔
      truthy (watchedToken old_state) = true ∧ truthy (watchedToken new_state) = true ∧
        watchedToken old_state ≠ watchedToken new_state) ∧
    (¬ (truthy (watchedToken old_state) = true ∧ truthy (watchedToken new_state) = true) →
      ∀ t, ("MEDIUM", "Puzzle space updated (sha: " ++ t ++ ")") ∉
        detect_changes old_state new_state) := by
  constructor
  · constructor
    · intro hc
      by_contra hneg
      have hz : watchedSpaceChange old_state new_state = [] := by
        by_cases hT : truthy (watchedToken old_state) = true ∧
            truthy (watchedToken new_state) = true
        · by_cases hE : watchedToken old_state = watchedToken new_state
          · exact watchedSpaceChange_token_eq hE
          · exact absurd ⟨hT.1, hT.2, hE⟩ hneg
        · exact watchedSpaceChange_not_truthy hT
      rw [countChange_detect_changes, hz, countChange_nil,
          countChange_newSpaceChanges_ne_high (show ("MEDIUM" : String) ≠ "HIGH" by decide),
          countChange_watchedEntry_newModelChanges] at hc
      exact absurd hc (by decide)
    · rintro ⟨h1, h2, h3⟩
      rw [countChange_detect_changes, watchedSpaceChange_pos h1 h2 h3,
          countChange_newSpaceChanges_ne_high (show ("MEDIUM" : String) ≠ "HIGH" by decide),
          countChange_watchedEntry_newModelChanges, countChange_singleton]
  · intro hneg t
    unfold detect_changes
    intro hmem
    rcases List.mem_append.mp hmem with h12 | h3
    · rcases List.mem_append.mp h12 with hA | hB
      · obtain ⟨s, he, -, -⟩ := mem_newSpaceChanges hA
        exact absurd (congrArg Prod.fst he) (show ("MEDIUM" : String) ≠ "HIGH" by decide)
      · obtain ⟨m, he, -, -⟩ := mem_newModelChanges hB
        exact newModel_ne_puzzle m t ")" (congrArg Prod.snd he).symm
    · rw [watchedSpaceChange_not_truthy hneg] at h3
      exact absurd h3 (List.not_mem_nil _)

/-- C2 witness: both concrete snapshots carry non-empty, different tokens,
and the watched entry occurs exactly once. -/
theorem C2_watched_freshness_witness :
    countChange (watchedEntry snapB) (detect_changes snapA snapB) = 1 :=
  (C2_watched_freshness snapA snapB).1.mpr ⟨rfl, rfl, by decide⟩

/-- C3: diffing a snapshot against itself yields no changes. -/
theorem C3_identical_snapshots (s : Snapshot) : detect_changes s s = [] := by
  unfold detect_changes newSpaceChanges newModelChanges
  rw [sortedSetDiff_self, sortedSetDiff_self, watchedSpaceChange_eq]
  simp

/-- C10: the change list depends only on the listings and the freshness
token; `checked_at` and `lastModified` are never read. -/
theorem C10_depends_only_on_ids_and_token (old1 new1 old2 new2 : Snapshot)
    (ho1 : old1.space_ids = old2.space_ids) (ho2 : old1.model_ids = old2.model_ids)
    (ho3 : watchedToken old1 = watchedToken old2)
    (hn1 : new1.space_ids = new2.space_ids) (hn2 : new1.model_ids = new2.model_ids)
    (hn3 : watchedToken new1 = watchedToken new2) :
    detect_changes old1 new1 = detect_changes old2 new2 := by
  have he : watchedEntry new1 = watchedEntry new2 := by
    unfold watchedEntry
    rw [hn3]
  unfold detect_changes newSpaceChanges newModelChanges
  rw [watchedSpaceChange_eq, watchedSpaceChange_eq, ho1, ho2, hn1, hn2, he, ho3, hn3]

/-- C10 witness: the pairs `snapA, snapA2` and `snapB, snapB2` differ in
`checked_at` and `lastModified` yet produce the same change list. -/
theorem C10_witness : detect_changes snapA snapB = detect_changes snapA2 snapB2 :=
  C10_depends_only_on_ids_and_token snapA snapB snapA2 snapB2 rfl rfl rfl rfl rfl rfl

/-! Branch equations for `runMain`. -/

/-- A failing `fetch_repo_lists` short-circuits the run. -/
theorem runMain_fetch_error {env : RunEnv} {e : FetchError}
    (h : fetch_repo_lists env.spacesResp env.modelsResp = Except.error e) :
    runMain env = fetchFailResult e := by
  unfold runMain
  rw [h]

/-- A failing `fetch_space_detail` short-circuits the run. -/
theorem runMain_detail_error {env : RunEnv} {repos : RepoLists} {e : FetchError}
    (h1 : fetch_repo_lists env.spacesResp env.modelsResp = Except.ok repos)
    (h2 : fetch_space_detail env.detailResp = Except.error e) :
    runMain env = fetchFailResult e := by
  unfold runMain
  rw [h1, h2]

/-- Both fetches succeeded: the run is `afterFetch` on the built state. -/
theorem runMain_ok {env : RunEnv} {repos : RepoLists} {detail : WatchedDetail}
    (h1 : fetch_repo_lists env.spacesResp env.modelsResp = Except.ok repos)
    (h2 : fetch_space_detail env.detailResp = Except.ok detail) :
    runMain env = afterFetch env (newStateOf env repos detail) := by
  unfold runMain
  rw [h1, h2]

/-- No snapshot on disk: save and stop. -/
theorem afterFetch_first {env : RunEnv} {new_state : Snapshot}
    (hp : env.priorState = none) :
    afterFetch env new_state =
      { exitCode := 0, savedState := some new_state, posted := false,
        sent := none, changes := [], printed := [PrintEvent.firstRun],
        crashed := false } := by
  unfold afterFetch
  rw [hp]

/-- A snapshot exists: diff and notify. -/
theorem afterFetch_old {env : RunEnv} {new_state old_state : Snapshot}
    (hp : env.priorState = some old_state) :
    afterFetch env new_state = notifyAndSave env old_state new_state := by
  unfold afterFetch
  rw [hp]

/-- No changes: print, save, exit 0. -/
theorem notifyAndSave_no_changes {env : RunEnv} {old_state new_state : Snapshot}
    (hc : (detect_changes old_state new_state).isEmpty = true) :
    notifyAndSave env old_state new_state =
      { exitCode := 0, savedState := some new_state, posted := false,
        sent := none, changes := detect_changes old_state new_state,
        printed := [PrintEvent.noChanges], crashed := false } := by
  simp only [notifyAndSave]
  rw [if_pos hc]

/-- Changes, and the POST raised: the exception escapes, nothing is saved. -/
theorem notifyAndSave_crash {env : RunEnv} {old_state new_state : Snapshot}
    (hc : ¬ (detect_changes old_state new_state).isEmpty = true)
    (hs : (send_telegram env.botToken env.chatId
        (format_alert (detect_changes old_state new_state)) env.postResp).returned = none) :
    notifyAndSave env old_state new_state =
      { exitCode := 1, savedState := none,
        posted := (send_telegram env.botToken env.chatId
          (format_alert (detect_changes old_state new_state)) env.postResp).postIssued,
        sent := none, changes := detect_changes old_state new_state,
        printed := (send_telegram env.botToken env.chatId
          (format_alert (detect_changes old_state new_state)) env.postResp).printed,
        crashed := true } := by
  simp only [notifyAndSave]
  rw [if_neg hc, hs]

/-- Changes, and `send_telegram` returned a boolean: print the summary,
save, exit 0. -/
theorem notifyAndSave_sent {env : RunEnv} {old_state new_state : Snapshot} {b : Bool}
    (hc : ¬ (detect_changes old_state new_state).isEmpty = true)
    (hs : (send_telegram env.botToken env.chatId
        (format_alert (detect_changes old_state new_state)) env.postResp).returned = some b) :
    notifyAndSave env old_state new_state =
      { exitCode := 0, savedState := some new_state,
        posted := (send_telegram env.botToken env.chatId
          (format_alert (detect_changes old_state new_state)) env.postResp).postIssued,
        sent := some b, changes := detect_changes old_state new_state,
        printed := (send_telegram env.botToken env.chatId
            (format_alert (detect_changes old_state new_state)) env.postResp).printed ++
          [PrintEvent.detectedChanges (detect_changes old_state new_state).length b],
        crashed := false } := by
  simp only [notifyAndSave]
  rw [if_neg hc, hs]

/-- C4: on a first run — no prior snapshot on disk — the program persists
the freshly fetched snapshot, sends nothing, and produces no changes,
whatever the fetched data was. -/
theorem C4_first_run (env : RunEnv) (repos : RepoLists) (detail : WatchedDetail)
    (hr : fetch_repo_lists env.spacesResp env.modelsResp = Except.ok repos)
    (hd : fetch_space_detail env.detailResp = Except.ok detail)
    (hp : env.priorState = none) :
    runMain env =
      { exitCode := 0, savedState := some (newStateOf env repos detail),
        posted := false, sent := none, changes := [],
        printed := [PrintEvent.firstRun], crashed := false } := by
  rw [runMain_ok hr hd, afterFetch_first hp]

/-- C4 witness: a concrete first run persisting `snapA`. -/
theorem C4_first_run_witness :
    runMain envFirstRun =
      { exitCode := 0, savedState := some snapA, posted := false, sent := none,
        changes := [], printed := [PrintEvent.firstRun], crashed := false } :=
  C4_first_run envFirstRun
    { space_ids := ["jane-street/s1"], model_ids := ["jane-street/m1"] }
    { sha := some "aaaa1111bbbb2222", lastModified := some "2026-01-01T00:00:00.000Z" }
    rfl rfl rfl

/-- C5 (failing input): both fetches succeed, yet the run exits 1 — the
Telegram POST raises and nothing catches it. -/
theorem C5_nonzero_exit_without_fetch_failure :
    fetch_repo_lists envPostRaisesA.spacesResp envPostRaisesA.modelsResp =
      Except.ok { space_ids := ["jane-street/s1", "jane-street/s2"],
                  model_ids := ["jane-street/m1"] } ∧
    fetch_space_detail envPostRaisesA.detailResp =
      Except.ok { sha := some "aaaa1111bbbb2222",
                  lastModified := some "2026-01-02T00:00:00.000Z" } ∧
    (runMain envPostRaisesA).exitCode = 1 ∧
    (runMain envPostRaisesA).savedState = none ∧
    (runMain envPostRaisesA).crashed = true :=
  ⟨rfl, rfl, rfl, rfl, rfl⟩

/-- C6 counterexample: a non-2xx (404) listing response whose body is the
valid JSON `[]` does not abort the run — it exits 0 and still saves. -/
theorem C6_counterexample_listing_status_unchecked :
    envListing404.spacesResp = FetchOutcome.response 404 (some []) ∧
    (runMain envListing404).exitCode = 0 ∧
    (runMain envListing404).savedState ≠ none := by
  refine ⟨rfl, rfl, ?_⟩
  decide

/-- C6 as amended: a network error or malformed JSON on any of the three
requests aborts the run with exit code 1, a printed diagnostic and no state
write; for the detail request a 400–599 status aborts likewise.  The
listing statuses are never consulted. -/
theorem C6_amended_fetch_abort (env : RunEnv)
    (h : listingFetchFails env.spacesResp ∨ listingFetchFails env.modelsResp ∨
      detailFetchFails env.detailResp) :
    (runMain env).exitCode = 1 ∧ (runMain env).savedState = none ∧
      ∃ e, (runMain env).printed = [PrintEvent.fetchFailed e] := by
  have hrun : ∃ e, runMain env = fetchFailResult e := by
    rcases h with h | h | h
    · cases hs : env.spacesResp with
      | netError =>
        refine ⟨FetchError.requestError, runMain_fetch_error ?_⟩
        rw [hs]
        rfl
      | response st body =>
        rw [hs] at h
        have hb : body = none := h
        subst hb
        refine ⟨FetchError.valueError, runMain_fetch_error ?_⟩
        rw [hs]
        rfl
    · cases hs : env.spacesResp with
      | netError =>
        refine ⟨FetchError.requestError, runMain_fetch_error ?_⟩
        rw [hs]
        rfl
      | response st body =>
        cases body with
        | none =>
          refine ⟨FetchError.valueError, runMain_fetch_error ?_⟩
          rw [hs]
          rfl
        | some items =>
          cases hm : env.modelsResp with
          | netError =>
            refine ⟨FetchError.requestError, runMain_fetch_error ?_⟩
            rw [hs, hm]
            rfl
          | response st2 body2 =>
            rw [hm] at h
            have hb : body2 = none := h
            subst hb
            refine ⟨FetchError.valueError, runMain_fetch_error ?_⟩
            rw [hs, hm]
            rfl
    · cases hr : fetch_repo_lists env.spacesResp env.modelsResp with
      | error e => exact ⟨e, runMain_fetch_error hr⟩
      | ok repos =>
        cases hd : env.detailResp with
        | netError =>
          refine ⟨FetchError.requestError, runMain_detail_error hr ?_⟩
          rw [hd]
          rfl
        | response st body =>
          rw [hd] at h
          have hb : (400 ≤ st ∧ st < 600) ∨ body = none := h
          by_cases hst : 400 ≤ st ∧ st < 600
          · refine ⟨FetchError.httpError st, runMain_detail_error hr ?_⟩
            rw [hd]
            show (if 400 ≤ st ∧ st < 600 then Except.error (FetchError.httpError st)
                else match body with
                  | none => Except.error FetchError.valueError
                  | some d => Except.ok d) = Except.error (FetchError.httpError st)
            rw [if_pos hst]
          · rcases hb with hst2 | hb2
            · exact absurd hst2 hst
            · subst hb2
              refine ⟨FetchError.valueError, runMain_detail_error hr ?_⟩
              rw [hd]
              show (if 400 ≤ st ∧ st < 600 then Except.error (FetchError.httpError st)
                  else match (none : Option WatchedDetail) with
                    | none => Except.error FetchError.valueError
                    | some d => Except.ok d) = Except.error FetchError.valueError
              rw [if_neg hst]
  obtain ⟨e, he⟩ := hrun
  rw [he]
  exact ⟨rfl, rfl, e, rfl⟩

/-- C6 amended witness: a raised spaces request aborts the run. -/
theorem C6_amended_fetch_abort_witness :
    (runMain envSpacesNetError).exitCode = 1 ∧
    (runMain envSpacesNetError).savedState = none ∧
      ∃ e, (runMain envSpacesNetError).printed = [PrintEvent.fetchFailed e] :=
  C6_amended_fetch_abort envSpacesNetError (Or.inl trivial)

/-- C7 (failing input): changes were detected, the POST raises, the
exception escapes `send_telegram`, and the snapshot is never saved. -/
theorem C7_delivery_exception_skips_save :
    (runMain envPostRaisesB).changes ≠ [] ∧
    (runMain envPostRaisesB).savedState = none ∧
    (runMain envPostRaisesB).sent = none ∧
    (runMain envPostRaisesB).crashed = true ∧
    (runMain envPostRaisesB).exitCode = 1 := by
  refine ⟨?_, rfl, rfl, rfl, rfl⟩
  decide

/-- C8: a missing (or empty) bot token or chat id makes `send_telegram`
print the message, report `False`, and issue no POST. -/
theorem C8_missing_credentials (token chat_id : Option String) (message : String)
    (post : PostOutcome)
    (h : truthy token = false ∨ truthy chat_id = false) :
    send_telegram token chat_id message post =
      { returned := some false,
        printed := [PrintEvent.telegramNotConfigured message],
        postIssued := false } := by
  rcases h with h | h <;> simp [send_telegram, h]

/-- C8 witness: unset token, set chat id. -/
theorem C8_missing_credentials_witness :
    send_telegram none (some "42") "msg" (PostOutcome.response 200) =
      { returned := some false,
        printed := [PrintEvent.telegramNotConfigured "msg"],
        postIssued := false } :=
  C8_missing_credentials none (some "42") "msg" (PostOutcome.response 200) (Or.inl rfl)

/-- C9 counterexample: a listing carrying the same id twice is persisted
with the duplicate intact — `sorted(...)` sorts but does not deduplicate. -/
theorem C9_counterexample_duplicate_ids :
    (runMain envDupListing).savedState.map Snapshot.space_ids =
      some ["jane-street/alpha", "jane-street/alpha"] ∧
    (runMain envDupListing).savedState.map (fun s => decide s.space_ids.Nodup) =
      some false := by
  exact ⟨rfl, by decide⟩

/-- Whatever got saved this run is the state built from successful fetches. -/
theorem runMain_savedState {env : RunEnv} {snap : Snapshot}
    (h : (runMain env).savedState = some snap) :
    ∃ repos detail,
      fetch_repo_lists env.spacesResp env.modelsResp = Except.ok repos ∧
      fetch_space_detail env.detailResp = Except.ok detail ∧
      snap = newStateOf env repos detail := by
  cases hr : fetch_repo_lists env.spacesResp env.modelsResp with
  | error e =>
    rw [runMain_fetch_error hr] at h
    exact absurd h (by simp [fetchFailResult])
  | ok repos =>
    cases hd : fetch_space_detail env.detailResp with
    | error e =>
      rw [runMain_detail_error hr hd] at h
      exact absurd h (by simp [fetchFailResult])
    | ok detail =>
      refine ⟨repos, detail, rfl, rfl, ?_⟩
      rw [runMain_ok hr hd] at h
      cases hp : env.priorState with
      | none =>
        rw [afterFetch_first hp] at h
        exact (Option.some_inj.mp h).symm
      | some old_state =>
        rw [afterFetch_old hp] at h
        by_cases hc : (detect_changes old_state (newStateOf env repos detail)).isEmpty = true
        · rw [notifyAndSave_no_changes hc] at h
          exact (Option.some_inj.mp h).symm
        · cases hs : (send_telegram env.botToken env.chatId
              (format_alert (detect_changes old_state (newStateOf env repos detail)))
              env.postResp).returned with
          | none =>
            rw [notifyAndSave_crash hc hs] at h
            exact absurd h (by simp)
          | some b =>
            rw [notifyAndSave_sent hc hs] at h
            exact (Option.some_inj.mp h).symm

/-- Successful `fetch_repo_lists` runs come from two parsed listing bodies,
and return their id lists sorted. -/
theorem fetch_repo_lists_ok {s m : FetchOutcome (List RepoItem)} {repos : RepoLists}
    (h : fetch_repo_lists s m = Except.ok repos) :
    ∃ st1 items1 st2 items2,
      s = FetchOutcome.response st1 (some items1) ∧
      m = FetchOutcome.response st2 (some items2) ∧
      repos.space_ids = List.insertionSort strle (items1.map RepoItem.id) ∧
      repos.model_ids = List.insertionSort strle (items2.map RepoItem.id) := by
  cases s with
  | netError => exact absurd h (by simp [fetch_repo_lists])
  | response st1 b1 =>
    cases b1 with
    | none => exact absurd h (by simp [fetch_repo_lists])
    | some items1 =>
      cases m with
      | netError => exact absurd h (by simp [fetch_repo_lists])
      | response st2 b2 =>
        cases b2 with
        | none => exact absurd h (by simp [fetch_repo_lists])
        | some items2 =>
          refine ⟨st1, items1, st2, items2, rfl, rfl, ?_, ?_⟩
          · rw [← Except.ok.inj h]
          · rw [← Except.ok.inj h]

/-- C9 as amended: every persisted snapshot carries its id lists in sorted
(code-point) order; they are duplicate-free whenever the fetched listing ids
were, but duplicates in the listings are preserved. -/
theorem C9_amended_sorted_ids (env : RunEnv) (snap : Snapshot)
    (h : (runMain env).savedState = some snap) :
    List.Sorted strle snap.space_ids ∧ List.Sorted strle snap.model_ids ∧
    (∀ st items, env.spacesResp = FetchOutcome.response st (some items) →
      (items.map RepoItem.id).Nodup → snap.space_ids.Nodup) ∧
    (∀ st items, env.modelsResp = FetchOutcome.response st (some items) →
      (items.map RepoItem.id).Nodup → snap.model_ids.Nodup) := by
  obtain ⟨repos, detail, hr, hd, hsnap⟩ := runMain_savedState h
  obtain ⟨st1, items1, st2, items2, hs, hm, hsp, hmo⟩ := fetch_repo_lists_ok hr
  subst hsnap
  refine ⟨?_, ?_, ?_, ?_⟩
  · show List.Sorted strle repos.space_ids
    rw [hsp]
    exact @List.sorted_insertionSort String strle inferInstance
      ⟨strle_total⟩ ⟨fun _ _ _ h1 h2 => strle_trans h1 h2⟩ _
  · show List.Sorted strle repos.model_ids
    rw [hmo]
    exact @List.sorted_insertionSort String strle inferInstance
      ⟨strle_total⟩ ⟨fun _ _ _ h1 h2 => strle_trans h1 h2⟩ _
  · intro st items hresp hnodup
    rw [hs] at hresp
    obtain ⟨-, h2⟩ := FetchOutcome.response.inj hresp
    have h3 : items1 = items := Option.some_inj.mp h2
    subst h3
    show repos.space_ids.Nodup
    rw [hsp]
    exact (List.perm_insertionSort strle _).nodup_iff.mpr hnodup
  · intro st items hresp hnodup
    rw [hm] at hresp
    obtain ⟨-, h2⟩ := FetchOutcome.response.inj hresp
    have h3 : items2 = items := Option.some_inj.mp h2
    subst h3
    show repos.model_ids.Nodup
    rw [hmo]
    exact (List.perm_insertionSort strle _).nodup_iff.mpr hnodup

/-- C9 amended witness: the run on `envCleanListing` saves `snapClean`,
whose lists the theorem shows sorted and duplicate-free. -/
theorem C9_amended_sorted_ids_witness :
    List.Sorted strle snapClean.space_ids ∧ List.Sorted strle snapClean.model_ids ∧
    (∀ st items, envCleanListing.spacesResp = FetchOutcome.response st (some items) →
      (items.map RepoItem.id).Nodup → snapClean.space_ids.Nodup) ∧
    (∀ st items, envCleanListing.modelsResp = FetchOutcome.response st (some items) →
      (items.map RepoItem.id).Nodup → snapClean.model_ids.Nodup) :=
  C9_amended_sorted_ids envCleanListing snapClean (by decide)
